import Mathlib

/-!
Verification development for the Kerberos ticket-lifecycle plugin
(`src/middlewared/middlewared/plugins/kerberos.py`).

The Python code is shallowly embedded over `List Char` ("Chars") so that
every definition is executable by the kernel.  Python string operations
(`split`, `strip`, `splitlines`, `startswith`, ...) are reimplemented with
their Python semantics; `time.strptime` for the two fixed formats used by
the plugin is emulated including the exact regular-expression alternations
of CPython's `_strptime`, and `time.mktime` is modelled as the UTC epoch
conversion (a fixed, monotone choice of time zone; the plugin only ever
compares values produced by the same conversion).
-/

abbrev Chars := List Char

/-- Python `str.split(sep)` (non-empty separator), fuel-driven so that it
reduces in the kernel.  Consecutive separators yield empty fields. -/
def splitOnGo (sep : Chars) : Nat → Chars → Chars → List Chars
  | 0, s, cur => [cur.reverse ++ s]
  | _ + 1, [], cur => [cur.reverse]
  | fuel + 1, c :: rest, cur =>
    if sep.isPrefixOf (c :: rest) then
      cur.reverse :: splitOnGo sep fuel ((c :: rest).drop sep.length) []
    else
      splitOnGo sep fuel rest (c :: cur)

/-- Python `str.split(sep)` for a non-empty separator. -/
def pySplit (s sep : Chars) : List Chars :=
  if sep.isEmpty then [s] else splitOnGo sep (s.length + 1) s []

/-- Python `str.split(sep, 1)`: the pieces before and after the first
occurrence of `sep`, or `none` when `sep` does not occur (the caller's
2-tuple unpacking or `[1]` index would raise in that case). -/
def splitFirstGo (sep : Chars) : Nat → Chars → Chars → Option (Chars × Chars)
  | 0, _, _ => none
  | _ + 1, [], _ => none
  | fuel + 1, c :: rest, acc =>
    if sep.isPrefixOf (c :: rest) then
      some (acc.reverse, (c :: rest).drop sep.length)
    else
      splitFirstGo sep fuel rest (c :: acc)

def pySplit1 (s sep : Chars) : Option (Chars × Chars) :=
  splitFirstGo sep (s.length + 1) s []

/-- Python `str.splitlines()` restricted to the `\n`, `\r`, `\r\n`
terminators (the exotic Unicode line boundaries never occur in the tool
output being parsed).  No trailing empty line is produced. -/
def splitlinesGo : Chars → Chars → List Chars
  | [], cur => if cur.isEmpty then [] else [cur.reverse]
  | '\r' :: '\n' :: rest, cur => cur.reverse :: splitlinesGo rest []
  | '\r' :: rest, cur => cur.reverse :: splitlinesGo rest []
  | '\n' :: rest, cur => cur.reverse :: splitlinesGo rest []
  | c :: rest, cur => splitlinesGo rest (c :: cur)

def pySplitlines (s : Chars) : List Chars := splitlinesGo s []

/-- Python `str.strip(chars)`: remove the characters of the set from both
ends. -/
def pyStripChars (s chars : Chars) : Chars :=
  ((s.dropWhile (chars.contains ·)).reverse.dropWhile (chars.contains ·)).reverse

/-- Python `str.strip()` (whitespace). -/
def pyStrip (s : Chars) : Chars :=
  ((s.dropWhile Char.isWhitespace).reverse.dropWhile Char.isWhitespace).reverse

/-- Python `str.split()` with no argument: split on whitespace runs,
dropping empty fields. -/
def splitWSGo : Chars → Chars → List Chars
  | [], cur => if cur.isEmpty then [] else [cur.reverse]
  | c :: rest, cur =>
    if c.isWhitespace then
      if cur.isEmpty then splitWSGo rest [] else cur.reverse :: splitWSGo rest []
    else
      splitWSGo rest (c :: cur)

def pySplitWS (s : Chars) : List Chars := splitWSGo s []

/-- Python `str.startswith`. -/
def pyStartsWith (s pre : Chars) : Bool := pre.isPrefixOf s

/-- Python `str.upper()` on the ASCII range (the only inputs involved). -/
def pyUpper (s : Chars) : Chars := s.map Char.toUpper

/-- Decimal digit value. -/
def digitVal (c : Char) : Nat := c.toNat - '0'.toNat

/-- `days_from_civil` (Gregorian), valid for the years 1969-2068 produced
by the `%y` directive. -/
def daysFromCivil (y m d : Nat) : Int :=
  let y' := if m ≤ 2 then y - 1 else y
  let era := y' / 400
  let yoe := y' % 400
  let mp := if m > 2 then m - 3 else m + 9
  let doy := (153 * mp + 2) / 5 + (d - 1)
  let doe := yoe * 365 + yoe / 4 - yoe / 100 + doy
  (era * 146097 + doe : Int) - 719468

/-- Epoch seconds of a civil datetime (`time.mktime` modelled in UTC). -/
def civilSeconds (y m d hh mm ss : Nat) : Int :=
  daysFromCivil y m d * 86400 + (hh * 3600 + mm * 60 + ss : Nat)

/-- `%m` of CPython `_strptime`: regex `1[0-2]|0[1-9]|[1-9]`. -/
def scanMonth : Chars → Option (Nat × Chars)
  | c1 :: c2 :: rest =>
    if c1 = '1' ∧ ('0' ≤ c2 ∧ c2 ≤ '2') then some (10 + digitVal c2, rest)
    else if c1 = '0' ∧ ('1' ≤ c2 ∧ c2 ≤ '9') then some (digitVal c2, rest)
    else if '1' ≤ c1 ∧ c1 ≤ '9' then some (digitVal c1, c2 :: rest)
    else none
  | [c1] => if '1' ≤ c1 ∧ c1 ≤ '9' then some (digitVal c1, []) else none
  | [] => none

/-- `%d`: regex `3[01]|[12]\d|0[1-9]|[1-9]`. -/
def scanDay : Chars → Option (Nat × Chars)
  | c1 :: c2 :: rest =>
    if c1 = '3' ∧ ('0' ≤ c2 ∧ c2 ≤ '1') then some (30 + digitVal c2, rest)
    else if ('1' ≤ c1 ∧ c1 ≤ '2') ∧ c2.isDigit then some (10 * digitVal c1 + digitVal c2, rest)
    else if c1 = '0' ∧ ('1' ≤ c2 ∧ c2 ≤ '9') then some (digitVal c2, rest)
    else if '1' ≤ c1 ∧ c1 ≤ '9' then some (digitVal c1, c2 :: rest)
    else none
  | [c1] => if '1' ≤ c1 ∧ c1 ≤ '9' then some (digitVal c1, []) else none
  | [] => none

/-- `%y`: regex `\d\d`; CPython maps 00-68 to 20xx and 69-99 to 19xx. -/
def scanYear : Chars → Option (Nat × Chars)
  | c1 :: c2 :: rest =>
    if c1.isDigit ∧ c2.isDigit then
      let yy := 10 * digitVal c1 + digitVal c2
      some (if yy ≤ 68 then 2000 + yy else 1900 + yy, rest)
    else none
  | _ => none

/-- `%H`: regex `2[0-3]|[0-1]\d|\d`. -/
def scanHour : Chars → Option (Nat × Chars)
  | c1 :: c2 :: rest =>
    if c1 = '2' ∧ ('0' ≤ c2 ∧ c2 ≤ '3') then some (20 + digitVal c2, rest)
    else if ('0' ≤ c1 ∧ c1 ≤ '1') ∧ c2.isDigit then some (10 * digitVal c1 + digitVal c2, rest)
    else if c1.isDigit then some (digitVal c1, c2 :: rest)
    else none
  | [c1] => if c1.isDigit then some (digitVal c1, []) else none
  | [] => none

/-- `%M`: regex `[0-5]\d|\d`. -/
def scanMinute : Chars → Option (Nat × Chars)
  | c1 :: c2 :: rest =>
    if ('0' ≤ c1 ∧ c1 ≤ '5') ∧ c2.isDigit then some (10 * digitVal c1 + digitVal c2, rest)
    else if c1.isDigit then some (digitVal c1, c2 :: rest)
    else none
  | [c1] => if c1.isDigit then some (digitVal c1, []) else none
  | [] => none

/-- `%S`: regex `6[0-1]|[0-5]\d|\d`. -/
def scanSecond : Chars → Option (Nat × Chars)
  | c1 :: c2 :: rest =>
    if c1 = '6' ∧ ('0' ≤ c2 ∧ c2 ≤ '1') then some (60 + digitVal c2, rest)
    else if ('0' ≤ c1 ∧ c1 ≤ '5') ∧ c2.isDigit then some (10 * digitVal c1 + digitVal c2, rest)
    else if c1.isDigit then some (digitVal c1, c2 :: rest)
    else none
  | [c1] => if c1.isDigit then some (digitVal c1, []) else none
  | [] => none

/-- Gregorian month length; `_strptime` builds a `datetime.date`, so a
day out of range for its month raises `ValueError`. -/
def daysInMonth (y m : Nat) : Nat :=
  if m = 2 then
    if y % 4 = 0 ∧ (y % 100 ≠ 0 ∨ y % 400 = 0) then 29 else 28
  else if m = 4 ∨ m = 6 ∨ m = 9 ∨ m = 11 then 30
  else 31

/-- A literal character of the format string. -/
def scanLit (c : Char) : Chars → Option Chars
  | c1 :: rest => if c1 = c then some rest else none
  | [] => none

/-- Whitespace in a `strptime` format matches `\s+`. -/
def scanWS : Chars → Option Chars
  | c1 :: rest => if c1.isWhitespace then some (rest.dropWhile Char.isWhitespace) else none
  | [] => none

/-- `time.strptime(s, "%m/%d/%y %H:%M:%S")` followed by `time.mktime`,
returning epoch seconds; `none` when strptime raises `ValueError`. -/
def parseDT (s : Chars) : Option Int :=
  match scanMonth s with
  | none => none
  | some (m, r1) =>
    match scanLit '/' r1 with
    | none => none
    | some r2 =>
      match scanDay r2 with
      | none => none
      | some (d, r3) =>
        match scanLit '/' r3 with
        | none => none
        | some r4 =>
          match scanYear r4 with
          | none => none
          | some (y, r5) =>
            match scanWS r5 with
            | none => none
            | some r6 =>
              match scanHour r6 with
              | none => none
              | some (hh, r7) =>
                match scanLit ':' r7 with
                | none => none
                | some r8 =>
                  match scanMinute r8 with
                  | none => none
                  | some (mm, r9) =>
                    match scanLit ':' r9 with
                    | none => none
                    | some r10 =>
                      match scanSecond r10 with
                      | none => none
                      | some (ss, r11) =>
                        if r11.isEmpty ∧ d ≤ daysInMonth y m then
                          some (civilSeconds y m d hh mm ss)
                        else none

/-- `time.strptime(s, "%m/%d/%y")` followed by `time.mktime` (midnight),
used by the keytab lister. -/
def parseD (s : Chars) : Option Int :=
  match scanMonth s with
  | none => none
  | some (m, r1) =>
    match scanLit '/' r1 with
    | none => none
    | some r2 =>
      match scanDay r2 with
      | none => none
      | some (d, r3) =>
        match scanLit '/' r3 with
        | none => none
        | some r4 =>
          match scanYear r4 with
          | none => none
          | some (y, r5) =>
            if r5.isEmpty ∧ d ≤ daysInMonth y m then
              some (civilSeconds y m d 0 0 0)
            else none

/-- `krb_tkt_flag` (kerberos.py lines 33-47). -/
inductive KrbTktFlag
  | FORWARDABLE | FORWARDED | PROXIABLE | PROXY
  | POSTDATEABLE | POSTDATED | RENEWABLE | INITIAL
  | INVALID | HARDWARE_AUTHENTICATED | PREAUTHENTICATED
  | TRANSIT_POLICY_CHECKED | OKAY_AS_DELEGATE | ANONYMOUS
deriving Repr, DecidableEq

/-- `krb_tkt_flag(f)` lookup by one-letter value; `ValueError` is `none`. -/
def flagOfChar : Char → Option KrbTktFlag
  | 'F' => some .FORWARDABLE
  | 'f' => some .FORWARDED
  | 'P' => some .PROXIABLE
  | 'p' => some .PROXY
  | 'D' => some .POSTDATEABLE
  | 'd' => some .POSTDATED
  | 'R' => some .RENEWABLE
  | 'I' => some .INITIAL
  | 'i' => some .INVALID
  | 'H' => some .HARDWARE_AUTHENTICATED
  | 'A' => some .PREAUTHENTICATED
  | 'T' => some .TRANSIT_POLICY_CHECKED
  | 'O' => some .OKAY_AS_DELEGATE
  | 'a' => some .ANONYMOUS
  | _ => none

/-- `[krb_tkt_flag(f).name for f in flags]`. -/
def flagsOfChars : Chars → Option (List KrbTktFlag)
  | [] => some []
  | c :: rest =>
    match flagOfChar c with
    | none => none
    | some fl =>
      match flagsOfChars rest with
      | none => none
      | some fls => some (fl :: fls)

/-- `MIDDLEWARE_RUN_DIR` (imported from `middlewared.utils`, outside the
provided sources; the concrete directory string is opaque to every claim). -/
def MIDDLEWARE_RUN_DIR : Chars := "/run/middleware".data

/-- `krb5ccache` (kerberos.py lines 27-30). -/
inductive Krb5ccache | SYSTEM | TEMP | USER
deriving Repr, DecidableEq

def krb5ccacheValue : Krb5ccache → Chars
  | .SYSTEM => MIDDLEWARE_RUN_DIR ++ "/krb5cc_0".data
  | .TEMP => MIDDLEWARE_RUN_DIR ++ "/krb5cc_middleware_temp".data
  | .USER => MIDDLEWARE_RUN_DIR ++ "/krb5cc_".data

/-- `krb5ccache(value)` lookup by value; `ValueError` is `none`. -/
def krb5ccacheOfValue (v : Chars) : Option Krb5ccache :=
  if v = krb5ccacheValue .SYSTEM then some .SYSTEM
  else if v = krb5ccacheValue .TEMP then some .TEMP
  else if v = krb5ccacheValue .USER then some .USER
  else none

def krb5ccacheName : Krb5ccache → Chars
  | .SYSTEM => "SYSTEM".data
  | .TEMP => "TEMP".data
  | .USER => "USER".data

/-- One row of `parse_klist` output. -/
structure Ticket where
  issued : Int
  expires : Int
  renew_until : Int
  client : Option Chars
  server : Chars
  etype : Option Chars
  flags : List KrbTktFlag
deriving Repr, DecidableEq

/-- The `ticket_cache` header dict. -/
structure TicketCacheInfo where
  type : Chars
  name : Chars
deriving Repr, DecidableEq

/-- The dict returned by `parse_klist`. -/
structure Snapshot where
  default_principal : Option Chars
  ticket_cache : Option TicketCacheInfo
  tickets : List Ticket
deriving Repr, DecidableEq

/-- State of the continuation-line scan (`renew_until`, `flags`, `etype`
locals of the `for i in range(idx + 1, idx + 3)` loop). -/
structure ScanState where
  renew_until : Int
  flags : Chars
  etype : Option Chars
deriving Repr, DecidableEq

def scanInit : ScanState := { renew_until := 0, flags := [], etype := none }

/-- Character set of `'\trenew until '` for the `str.strip` call. -/
def renewStripSet : Chars := "\trenew until ".data

/-- One iteration of the continuation-line loop body (kerberos.py lines
560-577).  Returns the updated state and whether the loop continues;
`none` models an uncaught Python exception (`IndexError`/`ValueError`). -/
def scanStep (st : ScanState) (line : Chars) : Option (ScanState × Bool) :=
  match line with
  | [] => none
  | c :: _ =>
    if c.isDigit then some (st, false)
    else if pyStartsWith line ("\tEtype".data) then
      some ({ st with etype := some (pyStrip line) }, false)
    else if pyStartsWith line ("\trenew".data) then
      match pySplit line (",".data) with
      | [ts, fl] =>
        match parseDT (pyStripChars ts renewStripSet) with
        | none => none
        | some t =>
          match (pySplit fl ("Flags: ".data)).get? 1 with
          | none => none
          | some f => some ({ st with renew_until := t, flags := f }, true)
      | _ => none
    else
      match pySplit1 line (", ".data) with
      | none => none
      | some (e0, e1) =>
        some ({ st with flags := pyStrip (e0.drop 7), etype := some (pyStrip e1) }, true)

/-- The continuation-line loop: `for i in range(idx + 1, idx + 3)` looks at
at most the two lines following a ticket's digit-leading line. -/
def scanCont (rest : List Chars) : Option ScanState :=
  match rest with
  | [] => some scanInit
  | l1 :: rest1 =>
    match scanStep scanInit l1 with
    | none => none
    | some (st1, false) => some st1
    | some (st1, true) =>
      match rest1 with
      | [] => some st1
      | l2 :: _ =>
        match scanStep st1 l2 with
        | none => none
        | some (st2, _) => some st2

/-- Parse a digit-leading ticket line `issued  expires  server` together
with its continuation window (kerberos.py lines 550-587). -/
def parseTicketLine (dflt : Option Chars) (e : Chars) (rest : List Chars) : Option Ticket :=
  let d := pySplit e ("  ".data)
  match d.get? 0, d.get? 1, d.get? 2 with
  | some d0, some d1, some d2 =>
    match parseDT d0, parseDT d1 with
    | some issued, some expires =>
      match scanCont rest with
      | none => none
      | some st =>
        match flagsOfChars st.flags with
        | none => none
        | some fls =>
          some { issued := issued, expires := expires, renew_until := st.renew_until,
                 client := dflt, server := d2, etype := st.etype, flags := fls }
    | _, _ => none
  | _, _, _ => none

/-- Character set of `'Ticket cache: '` for the `str.strip` call. -/
def ticketCacheStripSet : Chars := "Ticket cache: ".data

/-- The `Ticket cache` header branch (kerberos.py lines 536-544). -/
def parseCacheLine (e : Chars) : Option TicketCacheInfo :=
  match pySplit1 (pyStripChars e ticketCacheStripSet) (":".data) with
  | none => none
  | some (cache_type, cache_name) =>
    if cache_type = ("FILE".data) then
      match krb5ccacheOfValue (pyStrip cache_name) with
      | none => none
      | some cc => some { type := cache_type, name := krb5ccacheName cc }
    else
      some { type := cache_type, name := cache_name }

/-- The main line loop of `parse_klist` (kerberos.py lines 535-593).  The
loop visits every line; ticket lines look ahead at the following two lines
but the loop itself never skips. -/
def parseLines (dflt : Option Chars) (cache : Option TicketCacheInfo)
    (acc : List Ticket) : List Chars → Option Snapshot
  | [] => some { default_principal := dflt, ticket_cache := cache, tickets := acc.reverse }
  | e :: rest =>
    if pyStartsWith e ("Ticket cache".data) then
      match parseCacheLine e with
      | none => none
      | some tc => parseLines dflt (some tc) acc rest
    else if pyStartsWith e ("Default".data) then
      match (pySplit e (":".data)).get? 1 with
      | none => none
      | some p => parseLines (some (pyStrip p)) cache acc rest
    else
      match e with
      | [] => parseLines dflt cache acc rest
      | c :: _ =>
        if c.isDigit then
          match parseTicketLine dflt e rest with
          | none => none
          | some t => parseLines dflt cache (t :: acc) rest
        else
          parseLines dflt cache acc rest

/-- `KerberosService.parse_klist` on a decoded `klist -ef` buffer. -/
def parse_klist (klistbuf : Chars) : Option Snapshot :=
  parseLines none none [] (pySplitlines klistbuf)

/-- `KRB_TKT_CHECK_INTERVAL` (kerberos.py line 18). -/
def KRB_TKT_CHECK_INTERVAL : Int := 1800

/-- The TGT lookup of `renew` (kerberos.py lines 629-633):
`filter_list(tickets, [['client', '=', default_principal],
['server', '^', 'krbtgt']], {'get': True})` returns the first ticket whose
client equals the default principal and whose server principal has the
`krbtgt` prefix, raising when none matches. -/
def findTGT (info : Snapshot) : Option Ticket :=
  info.tickets.find? (fun t =>
    t.client = info.default_principal ∧ pyStartsWith t.server ("krbtgt".data))

/-- Outcome of one `KerberosService.renew` evaluation. -/
inductive RenewResult
  /-- `return await self.start()`: re-acquire from scratch. -/
  | startCalled
  /-- `return tgt_info`: no action, current snapshot returned. -/
  | noAction (s : Snapshot)
  /-- `kinit -R` invoked (followed by a fresh `klist`). -/
  | renewInvoked
  /-- the `filter_list(..., {'get': True})` lookup raised (no TGT row). -/
  | tgtNotFound
deriving Repr, DecidableEq

/-- The decision logic of `KerberosService.renew` (kerberos.py lines
618-659): `klistTestOk` is the result of `_klist_test()` and `tgt_info`
the snapshot returned by `klist()`; `now` is `time.time()`. -/
def kerberosRenew (klistTestOk : Bool) (tgt_info : Snapshot) (now : Int) : RenewResult :=
  if klistTestOk = false then .startCalled
  else
    match findTGT tgt_info with
    | none => .tgtNotFound
    | some ticket =>
      let remaining := ticket.expires - now
      if remaining < 0 then .startCalled
      else if remaining > KRB_TKT_CHECK_INTERVAL then .noAction tgt_info
      else if KrbTktFlag.RENEWABLE ∉ ticket.flags then .startCalled
      else if 2 * KRB_TKT_CHECK_INTERVAL + now > ticket.renew_until then .startCalled
      else .renewInvoked

/-- Modelled from the spec: the `@job(lock="kerberos_renew_watch",
lock_queue_size=1)` scheduling machinery (the `job` decorator and the
`core` job registry) lives outside the provided sources.  Per the spec the
renewal task enforces at most one concurrent instance per process: a
second `start` while one task is active joins the existing task instead of
spawning a duplicate, leaving its schedule undisturbed.  The supervisor
state holds the id of the active `wait_for_renewal` task, if any. -/
structure RenewalSupervisor where
  active : Option Nat
  nextId : Nat
deriving Repr, DecidableEq

/-- Modelled from the spec: launching the renewal task under the
single-instance lock — a no-op when a task is already active. -/
def launchRenewal (s : RenewalSupervisor) : RenewalSupervisor :=
  match s.active with
  | some _ => s
  | none => { active := some s.nextId, nextId := s.nextId + 1 }

/-- The effect of `KerberosService.start` (kerberos.py lines 697-710) on
the renewal-task supervisor: after config generation and `_kinit`, it
calls `kerberos.wait_for_renewal`, which the lock reduces to
`launchRenewal`. -/
def kerberosStart (s : RenewalSupervisor) : RenewalSupervisor := launchRenewal s

/-- Number of active renewal tasks. -/
def activeRenewalCount (s : RenewalSupervisor) : Nat :=
  match s.active with
  | some _ => 1
  | none => 0

/-- Process state seen by `KerberosService.stop` (kerberos.py lines
685-695): the ids of RUNNING `kerberos.wait_for_renewal` jobs (as returned
by `core.get_jobs`) and whether the System credential cache exists. -/
structure KrbProcState where
  renewalJobs : List Nat
  systemCacheExists : Bool
deriving Repr, DecidableEq

/-- `KerberosService.stop`: if a running renewal job is found, abort the
first one (`core.job_abort(renewal_job[0]['id'])`), then `kdestroy()` the
System cache.  `core.job_abort` is modelled from the spec (cancel removes
the task); the external `kdestroy` tool's destroy attempt is modelled as
removing the cache. -/
def kerberosStop (s : KrbProcState) : KrbProcState :=
  let s1 :=
    match s.renewalJobs with
    | [] => s
    | j :: _ => { s with renewalJobs := s.renewalJobs.erase j }
  { s1 with systemCacheExists := false }

/-- `DSType` tags used by `get_cred` (the `idmap.DSType` enum is outside
the provided sources; only these two members are referenced — any non-AD
tag takes the LDAP branch of the code). -/
inductive DSTypeTag | DS_TYPE_ACTIVEDIRECTORY | DS_TYPE_LDAP
deriving Repr, DecidableEq

/-- The `conf` dict of `get-kerberos-creds`: a Python dict whose absent or
empty fields are falsy under `conf.get(k)`.  `[]`/`0` model an absent or
empty value. -/
structure KrbConf where
  bindname : Chars := []
  bindpw : Chars := []
  domainname : Chars := []
  binddn : Chars := []
  kerberos_realm : Nat := 0
  kerberos_principal : Chars := []
deriving Repr, DecidableEq

/-- Result of credential resolution. -/
inductive KrbCred
  | keytab (kerberos_principal : Chars)
  | userPass (username password : Chars)
deriving Repr, DecidableEq

/-- Errors of `get_cred`. -/
inductive CredError
  /-- aggregate `ValidationErrors` naming the missing `conf.*` fields. -/
  | validation (fields : List Chars)
  /-- the realm `query(..., {'get': True})` found no record. -/
  | realmNotFound
  /-- `bind_cn[1]` raised `IndexError` (bind DN without `=`). -/
  | indexError
deriving Repr, DecidableEq

/-- `KerberosService.get_cred` (kerberos.py lines 359-394).  `realmLookup`
models the `kerberos.realm.query` datastore call, mapping a realm id to
its `realm` name; it is consulted only on the LDAP success path. -/
def get_cred (dstype : DSTypeTag) (conf : KrbConf) (realmLookup : Nat → Option Chars) :
    Except CredError KrbCred :=
  if conf.kerberos_principal ≠ [] then .ok (.keytab conf.kerberos_principal)
  else
    match dstype with
    | .DS_TYPE_ACTIVEDIRECTORY =>
      let missing :=
        (if conf.bindname = [] then ["conf.bindname".data] else []) ++
        (if conf.bindpw = [] then ["conf.bindpw".data] else []) ++
        (if conf.domainname = [] then ["conf.domainname".data] else [])
      if missing ≠ [] then .error (.validation missing)
      else .ok (.userPass (conf.bindname ++ ('@' :: pyUpper conf.domainname)) conf.bindpw)
    | .DS_TYPE_LDAP =>
      let missing :=
        (if conf.binddn = [] then ["conf.binddn".data] else []) ++
        (if conf.bindpw = [] then ["conf.bindpw".data] else []) ++
        (if conf.kerberos_realm = 0 then ["conf.kerberos_realm".data] else [])
      if missing ≠ [] then .error (.validation missing)
      else
        match realmLookup conf.kerberos_realm with
        | none => .error .realmNotFound
        | some realm =>
          let bind_cn := pySplit ((pySplit conf.binddn (",".data)).headD []) ("=".data)
          match bind_cn.get? 1 with
          | none => .error .indexError
          | some nm => .ok (.userPass (nm ++ ('@' :: realm)) conf.bindpw)

/-- Python `str(n)` for the non-negative integers appearing in `kinit`
argv construction. -/
def natRepr (n : Nat) : Chars := (Nat.toDigits 10 n)

/-- The credential union accepted by `do_kinit`. -/
inductive KinitCred
  | userPass (username password : Chars)
  | keytab (kerberos_principal : Chars)
deriving Repr, DecidableEq

/-- `kinit-options` (kerberos.py lines 413-423) with schema defaults. -/
structure KinitOptions where
  ccache : Krb5ccache := .SYSTEM
  ccache_uid : Nat := 0
  renewal_period : Nat := 7
  lifetime : Nat := 0
  kdc_override_domain : Option Chars := none
  kdc_override_kdc : Option Chars := none
deriving Repr, DecidableEq

/-- External actions performed by `do_kinit`, in order. -/
inductive KinitEffect
  /-- `kerberos.generate_stub_config` -/
  | generateStubConfig (domain : Chars) (kdc : Chars)
  /-- `etc.generate kerberos` (keytab regeneration) -/
  | etcGenerateKerberos
  /-- `run(cmd)` (keytab path) -/
  | runKinit (argv : List Chars)
  /-- `Popen(cmd)` with the password on stdin (password path) -/
  | popenKinitWithPassword (argv : List Chars)
  /-- `os.chown(ccache_path, uid, -1)` -/
  | chownCcache (uid : Nat)
deriving Repr, DecidableEq

/-- `CallError`s raised by `do_kinit`. -/
inductive KinitError
  /-- 'User-specific ccache not permitted with keytab-based kinit' -/
  | userCcacheWithKeytab
  /-- 'User-specific ccache not permitted for uid 0' -/
  | userCcacheUidZero
  /-- 'Domain missing from KDC override' -/
  | domainMissingFromKdcOverride
  /-- kinit exited non-zero -/
  | kinitFailed
deriving Repr, DecidableEq

/-- `KerberosService.ccache_path` (kerberos.py lines 171-178). -/
def ccache_path (ccache : Krb5ccache) (ccache_uid : Nat) : Chars :=
  if ccache = .USER then krb5ccacheValue .USER ++ natRepr ccache_uid
  else krb5ccacheValue ccache

/-- Environment of one `do_kinit` call: the keytab principal choices and
the external `kinit` exit code. -/
structure KinitEnv where
  principal_choices : List Chars
  kinit_returncode : Int
deriving Repr, DecidableEq

/-- `KerberosService.do_kinit` (kerberos.py lines 425-486), returning the
external effects performed (in order) and the error raised, if any. -/
def do_kinit (env : KinitEnv) (cred : KinitCred) (opts : KinitOptions) :
    List KinitEffect × Option KinitError :=
  let has_principal : Bool := match cred with | .keytab _ => true | .userPass _ _ => false
  let path := ccache_path opts.ccache opts.ccache_uid
  if opts.ccache = .USER ∧ has_principal = true then ([], some .userCcacheWithKeytab)
  else if opts.ccache = .USER ∧ opts.ccache_uid = 0 then ([], some .userCcacheUidZero)
  else
    let cmd := ["kinit".data, "-V".data, "-r".data, natRepr opts.renewal_period,
                "-c".data, path]
    let cmd := if opts.lifetime ≠ 0 then cmd ++ ["-l".data, natRepr opts.lifetime ++ ['m']] else cmd
    match opts.kdc_override_kdc with
    | some kdc =>
      match opts.kdc_override_domain with
      | none => ([], some .domainMissingFromKdcOverride)
      | some dom =>
        match cred with
        | .keytab principal =>
          let pre := [KinitEffect.generateStubConfig dom kdc] ++
            (if env.principal_choices.contains principal then []
             else [KinitEffect.etcGenerateKerberos])
          let cmd := cmd ++ ["-k".data, principal]
          if env.kinit_returncode ≠ 0 then
            (pre ++ [.runKinit cmd], some .kinitFailed)
          else (pre ++ [.runKinit cmd], none)
        | .userPass username _ =>
          let cmd := cmd ++ [username]
          if env.kinit_returncode ≠ 0 then
            ([.generateStubConfig dom kdc, .popenKinitWithPassword cmd], some .kinitFailed)
          else
            ([.generateStubConfig dom kdc, .popenKinitWithPassword cmd] ++
              (if opts.ccache = .USER then [KinitEffect.chownCcache opts.ccache_uid] else []),
             none)
    | none =>
      match cred with
      | .keytab principal =>
        let pre := if env.principal_choices.contains principal then []
                   else [KinitEffect.etcGenerateKerberos]
        let cmd := cmd ++ ["-k".data, principal]
        if env.kinit_returncode ≠ 0 then
          (pre ++ [.runKinit cmd], some .kinitFailed)
        else (pre ++ [.runKinit cmd], none)
      | .userPass username _ =>
        let cmd := cmd ++ [username]
        if env.kinit_returncode ≠ 0 then
          ([.popenKinitWithPassword cmd], some .kinitFailed)
        else
          ([.popenKinitWithPassword cmd] ++
            (if opts.ccache = .USER then [KinitEffect.chownCcache opts.ccache_uid] else []),
           none)

/-- One row of `_ktutil_list` output. -/
structure KeytabEntry where
  slot : Nat
  kvno : Int
  principal : Chars
  etype : Chars
  etype_deprecated : Bool
  date : Int
deriving Repr, DecidableEq

/-- Python `int(s)` restricted to an optional sign and decimal digits
(the `kvno` field of `klist -tek` output); `none` is `ValueError`. -/
def parseIntChars (s : Chars) : Option Int :=
  match s with
  | '-' :: ds =>
    if ds ≠ [] ∧ ds.all Char.isDigit then
      some (-(ds.foldl (fun a c => 10 * a + digitVal c) 0 : Nat))
    else none
  | ds =>
    if ds ≠ [] ∧ ds.all Char.isDigit then
      some ((ds.foldl (fun a c => 10 * a + digitVal c) 0 : Nat))
    else none

/-- Character set of `'DEPRECATED:'` for the `str.strip` call on the
etype field. -/
def deprecatedStripSet : Chars := "DEPRECATED:".data

/-- Parse one line of the keytab listing (kerberos.py lines 1051-1060):
`fields = line.split()`; the entry draws on `fields[0]`, `fields[1]`,
`fields[3]` and `fields[4]`. -/
def parseKeytabLine (slot : Nat) (line : Chars) : Option KeytabEntry :=
  let fields := pySplitWS line
  match fields.get? 0, fields.get? 1, fields.get? 3, fields.get? 4 with
  | some f0, some f1, some f3, some f4 =>
    match parseIntChars f0, parseD f1 with
    | some kvno, some date =>
      some { slot := slot, kvno := kvno, principal := f3,
             etype := pyStripChars ((f4.drop 1).dropLast) deprecatedStripSet,
             etype_deprecated := pyStartsWith (f4.drop 1) ("DEPRECATED".data),
             date := date }
    | _, _ => none
  | _, _, _, _ => none

/-- The per-line loop of `_ktutil_list`, numbering slots from `idx + 1`. -/
def parseKeytabLines (slot : Nat) : List Chars → Option (List KeytabEntry)
  | [] => some []
  | line :: rest =>
    match parseKeytabLine slot line with
    | none => none
    | some e =>
      match parseKeytabLines (slot + 1) rest with
      | none => none
      | some es => some (e :: es)

/-- `do_ktutil_list` + `_ktutil_list` (kerberos.py lines 1000-1062) on the
`klist -tek` stdout lines: fewer than 4 lines yields no entries; otherwise
the first 3 lines are dropped, the remainder re-joined with newlines and
split again (dropping trailing empties), and each remaining line parsed
with 1-based slots. -/
def ktutil_list (outLines : List Chars) : Option (List KeytabEntry) :=
  if outLines.length < 4 then some []
  else
    let body := List.intercalate ['\n'] (outLines.drop 3)
    if body.isEmpty then some []
    else parseKeytabLines 1 (pySplitlines body)

/-- Result of `_prune_keytab_principals` (kerberos.py lines 1118-1141):
the slots named by the emitted `delent` commands (in emission order), the
path the pruned keytab is written to (`wkt`), and the path it is renamed
onto. -/
structure PruneResult where
  delentSlots : List Nat
  wroteTo : Chars
  renamedTo : Chars
deriving Repr, DecidableEq

def sambaKeytabPath : Chars := "/var/db/system/samba4/private/samba.keytab".data

def sambaMitKeytabPath : Chars := "/var/db/system/samba4/samba_mit.keytab".data

/-- `_prune_keytab_principals`: `delents` is built from `reversed(to_delete)`
and the pruned copy is renamed onto the samba keytab path. -/
def prune_keytab_principals (to_delete : List KeytabEntry) : PruneResult :=
  { delentSlots := to_delete.reverse.map (fun x => x.slot),
    wroteTo := sambaMitKeytabPath,
    renamedTo := sambaKeytabPath }

/-- Input-side orderliness of one line: if the line is a ticket's
digit-leading line, the timestamps written in the input are ordered — its
issued field is not later than its expires field, and a `renew until`
timestamp found by the continuation-line scan lies strictly after the
expires field.  Non-ticket lines are unconstrained. -/
def lineOrdered (e : Chars) (rest : List Chars) : Bool :=
  match e with
  | [] => true
  | c :: _ =>
    if c.isDigit then
      match (pySplit e ("  ".data)).get? 0, (pySplit e ("  ".data)).get? 1 with
      | some d0, some d1 =>
        match parseDT d0, parseDT d1 with
        | some i, some x =>
          decide (i ≤ x) &&
            (match scanCont rest with
             | some st => decide (st.renew_until = 0 ∨ x < st.renew_until)
             | none => true)
        | _, _ => true
      | _, _ => true
    else true

/-- Every ticket block of the input carries ordered timestamps. -/
def orderedLines : List Chars → Bool
  | [] => true
  | e :: r => lineOrdered e r && orderedLines r

/-- The final value of the `default_principal` local after the line loop
(mirrors the branch structure of `parseLines`; on a line the parser would
reject, the value is irrelevant). -/
def finalDefaultPrincipal (dflt : Option Chars) : List Chars → Option Chars
  | [] => dflt
  | e :: r =>
    if pyStartsWith e ("Ticket cache".data) then finalDefaultPrincipal dflt r
    else if pyStartsWith e ("Default".data) then
      match (pySplit e (":".data)).get? 1 with
      | none => dflt
      | some p => finalDefaultPrincipal (some (pyStrip p)) r
    else finalDefaultPrincipal dflt r

/-- Is any `Default`-prefixed line present? -/
def hasDefaultLine (lines : List Chars) : Bool :=
  lines.any (fun e => pyStartsWith e ("Default".data))

/-- The header shape of well-formed `klist` output: every `Default`-
prefixed line precedes every ticket's digit-leading line. -/
def defaultsFirst : List Chars → Bool
  | [] => true
  | e :: r =>
    (if pyStartsWith e ("Ticket cache".data) then true
     else if pyStartsWith e ("Default".data) then true
     else
       match e with
       | [] => true
       | c :: _ => if c.isDigit then !hasDefaultLine r else true) && defaultsFirst r

/-- klist buffer whose ticket line carries `issued` later than `expires`:
the parser accepts it unchanged. -/
def c4Buf : Chars :=
  ("Default principal: a@B\n01/02/25 00:00:00  01/01/25 00:00:00  krbtgt/B@B").data

/-- klist buffer whose ticket block has three continuation lines, the
third being the `renew until` marker: the scan window covers only two. -/
def c5Buf : Chars :=
  ("Default principal: a@B\n01/01/25 00:00:00  01/01/25 10:00:00  krbtgt/B@B\n\tFlags: F, Etype x\n\tFlags: F, Etype x\n\trenew until 01/02/25 00:00:00, Flags: R").data

/-- klist buffer whose ticket line precedes the `Default principal` line:
the ticket's client is the not-yet-assigned default. -/
def c10Buf : Chars :=
  ("01/01/25 00:00:00  01/01/25 10:00:00  krbtgt/B@B\n\tFlags: F, Etype x\n\tFlags: F, Etype x\nDefault principal: a@B").data




/-- Does a line begin with a digit (`e and e[0].isdigit()`)? -/
def digitLeading : Chars → Bool
  | [] => false
  | c :: _ => c.isDigit

/-- A well-formed `klist -ef` buffer (header first, one ticket, ordered
timestamps) used to instantiate the parser theorems. -/
def goodBuf : Chars :=
  ("Ticket cache: FILE:/run/middleware/krb5cc_0\nDefault principal: a@B\n\nValid starting     Expires            Service principal\n01/01/25 08:00:00  01/01/25 18:00:00  krbtgt/B@B\n\trenew until 01/08/25 08:00:00, Flags: RIA\n\tEtype (skey, tkt): aes256-cts-hmac-sha1-96, aes256-cts-hmac-sha1-96").data

/-- The ticket `parse_klist` extracts from `goodBuf`. -/
def goodTicket : Ticket :=
  { issued := 1735718400, expires := 1735754400, renew_until := 1736323200,
    client := some ("a@B".data), server := "krbtgt/B@B".data,
    etype := some ("Etype (skey, tkt): aes256-cts-hmac-sha1-96, aes256-cts-hmac-sha1-96".data),
    flags := [.RENEWABLE, .INITIAL, .PREAUTHENTICATED] }

/-- The snapshot `parse_klist` produces from `goodBuf`. -/
def goodSnap : Snapshot :=
  { default_principal := some ("a@B".data),
    ticket_cache := some { type := "FILE".data, name := "SYSTEM".data },
    tickets := [goodTicket] }

/-- AD configuration of the resolver scenario of the spec. -/
def adConfEx : KrbConf :=
  { bindname := "svc".data, bindpw := "s3cret".data, domainname := "example.com".data }

/-- LDAP configuration of the resolver scenario of the spec. -/
def ldapConfEx : KrbConf :=
  { binddn := "cn=admin,dc=example,dc=com".data, bindpw := "s3cret".data, kerberos_realm := 1 }

/-- Realm datastore of the LDAP scenario: id 1 is `EXAMPLE.COM`. -/
def realmLookupEx : Nat → Option Chars :=
  fun i => if i = 1 then some ("EXAMPLE.COM".data) else none

/-- `klist -tek` stdout used to instantiate the keytab-lister theorem. -/
def ktutilOutEx : List Chars :=
  ["Keytab name: FILE:/etc/krb5.keytab".data,
   "KVNO Timestamp         Principal".data,
   "---- ----------------- ---------".data,
   "   2 01/01/25 10:00:00 host/x@R (aes256-cts-hmac-sha1-96) ".data,
   "   3 01/01/25 10:00:00 TESTSRV$@R (DEPRECATED:arcfour-hmac) ".data]

/-- The entries `ktutil_list` extracts from `ktutilOutEx`. -/
def ktutilEntriesEx : List KeytabEntry :=
  [{ slot := 1, kvno := 2, principal := "host/x@R".data,
     etype := "aes256-cts-hmac-sha1-96".data, etype_deprecated := false, date := 1735689600 },
   { slot := 2, kvno := 3, principal := "TESTSRV$@R".data,
     etype := "arcfour-hmac".data, etype_deprecated := true, date := 1735689600 }]

lemma parseTicketLine_ordered (dflt : Option Chars) (c : Char) (e' : Chars)
    (rest : List Chars) (t : Ticket)
    (hc : c.isDigit = true)
    (hord : lineOrdered (c :: e') rest = true)
    (hp : parseTicketLine dflt (c :: e') rest = some t) :
    t.issued ≤ t.expires ∧ (t.renew_until = 0 ∨ t.expires < t.renew_until) := by
  simp only [lineOrdered, hc, if_true] at hord
  simp only [parseTicketLine] at hp
  split at hp
  case _ a0 a1 a2 h0 h1 h2 =>
    rw [h0, h1] at hord
    dsimp only at hord
    split at hp
    case _ i x hi hx =>
      rw [hi, hx] at hord
      dsimp only at hord
      simp only [Bool.and_eq_true, decide_eq_true_eq] at hord
      split at hp
      · exact absurd hp (by simp)
      case _ st hst =>
        rw [hst] at hord
        split at hp
        · exact absurd hp (by simp)
        case _ fls hfls =>
          cases hp
          simpa using hord
    · exact absurd hp (by simp)
  · exact absurd hp (by simp)

lemma parseLines_ordered_inv (lines : List Chars) :
    ∀ (dflt : Option Chars) (cache : Option TicketCacheInfo) (acc : List Ticket) (snap : Snapshot),
    orderedLines lines = true →
    (∀ t ∈ acc, t.issued ≤ t.expires ∧ (t.renew_until = 0 ∨ t.expires < t.renew_until)) →
    parseLines dflt cache acc lines = some snap →
    ∀ t ∈ snap.tickets, t.issued ≤ t.expires ∧ (t.renew_until = 0 ∨ t.expires < t.renew_until) := by
  induction lines with
  | nil =>
    intro dflt cache acc snap _ hacc hp
    simp only [parseLines] at hp
    cases hp
    intro t ht
    exact hacc t (by simpa using ht)
  | cons e r IH =>
    intro dflt cache acc snap hord hacc hp
    simp only [orderedLines, Bool.and_eq_true] at hord
    simp only [parseLines] at hp
    split at hp
    · split at hp
      · exact absurd hp (by simp)
      · exact IH _ _ _ _ hord.2 hacc hp
    · split at hp
      · split at hp
        · exact absurd hp (by simp)
        · exact IH _ _ _ _ hord.2 hacc hp
      · split at hp
        · exact IH _ _ _ _ hord.2 hacc hp
        · split at hp
          · split at hp
            · exact absurd hp (by simp)
            case _ t' hpt =>
              rename_i x0 c e' hnTC hnD hc xo
              refine IH _ _ _ _ hord.2 ?_ hp
              intro u hu
              rcases List.mem_cons.mp hu with rfl | hu'
              · exact parseTicketLine_ordered dflt c e' r u hc hord.1 hpt
              · exact hacc u hu'
          · exact IH _ _ _ _ hord.2 hacc hp

lemma parseTicketLine_client (dflt : Option Chars) (e : Chars) (rest : List Chars) (t : Ticket)
    (hp : parseTicketLine dflt e rest = some t) : t.client = dflt := by
  simp only [parseTicketLine] at hp
  split at hp
  · split at hp
    · split at hp
      · exact absurd hp (by simp)
      · split at hp
        · exact absurd hp (by simp)
        · cases hp; rfl
    · exact absurd hp (by simp)
  · exact absurd hp (by simp)

lemma finalDefault_of_no_default (dflt : Option Chars) (lines : List Chars)
    (h : hasDefaultLine lines = false) : finalDefaultPrincipal dflt lines = dflt := by
  induction lines with
  | nil => rfl
  | cons e r IH =>
    simp only [hasDefaultLine, List.any_cons, Bool.or_eq_false_iff] at h
    have IH' := IH (by simpa [hasDefaultLine] using h.2)
    simp only [finalDefaultPrincipal, h.1, Bool.false_eq_true, if_false]
    split
    · exact IH'
    · exact IH'

lemma parseLines_client_inv (lines : List Chars) :
    ∀ (dflt : Option Chars) (cache : Option TicketCacheInfo) (acc : List Ticket) (snap : Snapshot),
    defaultsFirst lines = true →
    (∀ t ∈ acc, t.client = finalDefaultPrincipal dflt lines) →
    parseLines dflt cache acc lines = some snap →
    snap.default_principal = finalDefaultPrincipal dflt lines ∧
      ∀ t ∈ snap.tickets, t.client = snap.default_principal := by
  induction lines with
  | nil =>
    intro dflt cache acc snap _ hacc hp
    simp only [parseLines] at hp
    cases hp
    refine ⟨rfl, ?_⟩
    intro t ht
    exact hacc t (by simpa using ht)
  | cons e r IH =>
    intro dflt cache acc snap hdf hacc hp
    simp only [defaultsFirst, Bool.and_eq_true] at hdf
    simp only [parseLines] at hp
    by_cases hTC : pyStartsWith e (("Ticket cache").data) = true
    · rw [if_pos hTC] at hp
      have hfd : finalDefaultPrincipal dflt (e :: r) = finalDefaultPrincipal dflt r := by
        simp [finalDefaultPrincipal, hTC]
      rw [hfd] at hacc ⊢
      split at hp
      · exact absurd hp (by simp)
      · exact IH _ _ _ _ hdf.2 hacc hp
    · rw [if_neg hTC] at hp
      by_cases hD : pyStartsWith e (("Default").data) = true
      · rw [if_pos hD] at hp
        split at hp
        · exact absurd hp (by simp)
        case _ p hget =>
          have hget2 : (pySplit e (":".data))[1]? = some p := by
            simpa [← List.get?_eq_getElem?] using hget
          have hfd : finalDefaultPrincipal dflt (e :: r) =
              finalDefaultPrincipal (some (pyStrip p)) r := by
            simp [finalDefaultPrincipal, hTC, hD, hget2]
          rw [hfd] at hacc ⊢
          exact IH _ _ _ _ hdf.2 hacc hp
      · rw [if_neg hD] at hp
        have hfd : finalDefaultPrincipal dflt (e :: r) = finalDefaultPrincipal dflt r := by
          simp [finalDefaultPrincipal, hTC, hD]
        rw [hfd] at hacc ⊢
        cases e with
        | nil =>
          dsimp only at hp
          exact IH _ _ _ _ hdf.2 hacc hp
        | cons c e' =>
          dsimp only at hp
          by_cases hdig : c.isDigit = true
          · rw [if_pos hdig] at hp
            split at hp
            · exact absurd hp (by simp)
            case _ t' hpt =>
              have hnd : hasDefaultLine r = false := by
                have h1 := hdf.1
                rw [if_neg hTC, if_neg hD] at h1
                simpa [hdig] using h1
              have hfin : finalDefaultPrincipal dflt r = dflt :=
                finalDefault_of_no_default dflt r hnd
              refine IH _ _ _ _ hdf.2 ?_ hp
              intro u hu
              rcases List.mem_cons.mp hu with rfl | hu'
              · rw [hfin]
                exact parseTicketLine_client dflt (c :: e') r u hpt
              · exact hacc u hu'
          · rw [if_neg hdig] at hp
            exact IH _ _ _ _ hdf.2 hacc hp

/-- C1: in the Monitoring step (`KerberosService.renew`), for the TGT
located in the System-cache snapshot (client equal to the default
principal, server principal prefixed with `krbtgt`) and
`remaining = expires - now`: a negative `remaining` always re-acquires
(never renews); `remaining` above the 1800-second check interval takes no
action and returns the current snapshot; with `0 ≤ remaining ≤ 1800` a
ticket without the RENEWABLE flag re-acquires, as does
`now + 2*1800 > renew_until`; otherwise `kinit -R` is invoked. -/
theorem renew_decision_spec (info : Snapshot) (t : Ticket) (now : Int)
    (hfind : findTGT info = some t) :
    (t.expires - now < 0 → kerberosRenew true info now = .startCalled) ∧
    (t.expires - now > KRB_TKT_CHECK_INTERVAL → kerberosRenew true info now = .noAction info) ∧
    (0 ≤ t.expires - now → t.expires - now ≤ KRB_TKT_CHECK_INTERVAL →
      KrbTktFlag.RENEWABLE ∉ t.flags → kerberosRenew true info now = .startCalled) ∧
    (0 ≤ t.expires - now → t.expires - now ≤ KRB_TKT_CHECK_INTERVAL →
      now + 2 * KRB_TKT_CHECK_INTERVAL > t.renew_until →
      kerberosRenew true info now = .startCalled) ∧
    (0 ≤ t.expires - now → t.expires - now ≤ KRB_TKT_CHECK_INTERVAL →
      KrbTktFlag.RENEWABLE ∈ t.flags → now + 2 * KRB_TKT_CHECK_INTERVAL ≤ t.renew_until →
      kerberosRenew true info now = .renewInvoked) := by
  have hKI : KRB_TKT_CHECK_INTERVAL = 1800 := rfl
  simp only [kerberosRenew, hfind, Bool.true_eq_false, if_false]
  refine ⟨?_, ?_, ?_, ?_, ?_⟩
  · intro h
    rw [if_pos h]
  · intro h
    rw [if_neg (by omega), if_pos h]
  · intro h1 h2 h3
    rw [if_neg (by omega), if_neg (by omega), if_pos h3]
  · intro h1 h2 h3
    rw [if_neg (by omega), if_neg (by omega)]
    by_cases hR : KrbTktFlag.RENEWABLE ∉ t.flags
    · rw [if_pos hR]
    · rw [if_neg hR,
        if_pos (show 2 * KRB_TKT_CHECK_INTERVAL + now > t.renew_until by omega)]
  · intro h1 h2 h3 h4
    rw [if_neg (by omega), if_neg (by omega), if_neg (by simpa using h3),
      if_neg (show ¬2 * KRB_TKT_CHECK_INTERVAL + now > t.renew_until by omega)]

/-- Witness for C1 at concrete inputs: `goodSnap` holds the TGT
`goodTicket` (expires 1735754400, renew_until 1736323200, RENEWABLE set).
At `now = 1735754405` (remaining = -5 s, the spec's expired scenario) the
step re-acquires; at `now = 1735579400` (remaining far above 1800 s) it
returns the snapshot; at `now = 1735754300` (remaining = 100 s, renewable,
renewal deadline far away) it invokes `kinit -R`. -/
theorem renew_decision_spec_witness :
    kerberosRenew true goodSnap 1735754405 = .startCalled ∧
    kerberosRenew true goodSnap 1735579400 = .noAction goodSnap ∧
    kerberosRenew true goodSnap 1735754300 = .renewInvoked :=
  ⟨(renew_decision_spec goodSnap goodTicket 1735754405 (by decide)).1 (by decide),
   (renew_decision_spec goodSnap goodTicket 1735579400 (by decide)).2.1 (by decide),
   (renew_decision_spec goodSnap goodTicket 1735754300 (by decide)).2.2.2.2
     (by decide) (by decide) (by decide) (by decide)⟩

/-- C2: at most one renewal task per process — a second `start()` while a
renewal task is active does not spawn a duplicate and leaves the existing
task's schedule (the supervisor state) undisturbed; `start()` immediately
followed by `start()` yields exactly one active renewal task. -/
theorem start_single_renewal_task (s : RenewalSupervisor) :
    kerberosStart (kerberosStart s) = kerberosStart s ∧
    activeRenewalCount (kerberosStart s) = 1 ∧
    activeRenewalCount (kerberosStart (kerberosStart s)) = 1 := by
  cases h : s.active with
  | some j =>
    simp [kerberosStart, launchRenewal, activeRenewalCount, h]
  | none =>
    simp [kerberosStart, launchRenewal, activeRenewalCount, h]

/-- C3: `stop()` is idempotent — with at most one running renewal task
(the invariant C2 maintains), calling it twice in a row yields the same
terminal state as calling it once, and calling it with no renewal task
running only performs the credential-cache destroy. -/
theorem stop_idempotent (s : KrbProcState) (hsingle : s.renewalJobs.length ≤ 1) :
    kerberosStop (kerberosStop s) = kerberosStop s ∧
    (s.renewalJobs = [] → kerberosStop s = { s with systemCacheExists := false }) := by
  match h : s.renewalJobs, hsingle with
  | [], _ =>
    constructor
    · simp [kerberosStop, h]
    · intro _
      simp [kerberosStop, h]
  | [j], _ =>
    constructor
    · simp [kerberosStop, h, List.erase]
    · intro hc
      exact absurd hc (by simp)
  | j1 :: j2 :: rest, hs => simp at hs

/-- Witness for C3: a state with one running renewal task and an existing
System cache reaches the same terminal state under one or two `stop()`
calls, and a task-free state is only cache-destroyed. -/
theorem stop_idempotent_witness :
    kerberosStop (kerberosStop { renewalJobs := [7], systemCacheExists := true }) =
      kerberosStop { renewalJobs := [7], systemCacheExists := true } ∧
    kerberosStop { renewalJobs := [], systemCacheExists := true } =
      { renewalJobs := [], systemCacheExists := false } :=
  ⟨(stop_idempotent { renewalJobs := [7], systemCacheExists := true } (by decide)).1,
   (stop_idempotent { renewalJobs := [], systemCacheExists := true } (by decide)).2 rfl⟩

/-- Counterexample to C4 as stated: `parse_klist` accepts `c4Buf`, whose
only ticket line carries an issued timestamp (01/02/25) later than its
expires timestamp (01/01/25), and the produced snapshot contains a ticket
with `expires < issued` — the parser does not enforce the invariant for
arbitrary input text. -/
theorem parse_klist_invariant_counterexample :
    (parse_klist c4Buf).map (fun s => s.tickets.any (fun t => t.expires < t.issued)) =
      some true := by decide

/-- C4 (amended): the parser copies timestamps from the input without
enforcement; for every input whose ticket blocks carry ordered timestamps
(issued not later than expires, any scanned renew-until strictly after
expires — as genuine `klist` output always does), every ticket of the
produced snapshot satisfies `expires >= issued` and
`renew_until = 0 ∨ renew_until > expires`. -/
theorem parse_klist_invariant_of_ordered (buf : Chars) (snap : Snapshot)
    (hord : orderedLines (pySplitlines buf) = true)
    (hp : parse_klist buf = some snap) :
    ∀ t ∈ snap.tickets,
      t.issued ≤ t.expires ∧ (t.renew_until = 0 ∨ t.expires < t.renew_until) := by
  exact parseLines_ordered_inv (pySplitlines buf) none none [] snap hord
    (by intro t ht; cases ht) hp

/-- Witness for the amended C4 at the concrete buffer `goodBuf`, whose
parse is `goodSnap` with single ticket `goodTicket`. -/
theorem parse_klist_invariant_of_ordered_witness :
    goodTicket.issued ≤ goodTicket.expires ∧
      (goodTicket.renew_until = 0 ∨ goodTicket.expires < goodTicket.renew_until) :=
  parse_klist_invariant_of_ordered goodBuf goodSnap (by decide) (by decide)
    goodTicket (by decide)

/-- Counterexample to C10 as stated: `parse_klist` accepts `c10Buf`, in
which the only `Default principal` line follows the ticket line; the
resulting snapshot has `default_principal = some "a@B"` while its ticket's
client is `none` — a snapshot can contain a ticket whose client differs
from the cache's default principal. -/
theorem parse_klist_client_counterexample :
    (parse_klist c10Buf).map
        (fun s => s.tickets.any (fun t => t.client ≠ s.default_principal)) =
      some true := by decide

/-- C10 (amended): each ticket's client is the default principal in effect
when its line was parsed (never derived from the ticket's own lines); for
every input in which every `Default`-prefixed line precedes every ticket's
digit-leading line (as in genuine `klist` output), every ticket's client
equals the snapshot's `default_principal`. -/
theorem parse_klist_client_eq_default (buf : Chars) (snap : Snapshot)
    (hdf : defaultsFirst (pySplitlines buf) = true)
    (hp : parse_klist buf = some snap) :
    ∀ t ∈ snap.tickets, t.client = snap.default_principal := by
  exact (parseLines_client_inv (pySplitlines buf) none none [] snap hdf
    (by intro t ht; cases ht) hp).2

/-- Witness for the amended C10 at the concrete buffer `goodBuf`. -/
theorem parse_klist_client_eq_default_witness :
    goodTicket.client = goodSnap.default_principal :=
  parse_klist_client_eq_default goodBuf goodSnap (by decide) (by decide)
    goodTicket (by decide)

/-- Counterexample to C5 as stated: in `c5Buf` the only ticket's
continuation block consists of three lines (none of them digit-leading, so
the block extends to the end of the buffer), the third of which is a
well-formed `renew until` marker that `scanStep` would accept — yet the
parsed ticket has `renew_until = 0`: the scan visits at most two
continuation lines, so it does not stop exactly at the next digit-leading
line and not every continuation line is reflected in the ticket. -/
theorem parse_klist_contscan_counterexample :
    (parse_klist c5Buf).map (fun s => s.tickets.map (fun t => t.renew_until)) = some [0] ∧
    pyStartsWith ((pySplitlines c5Buf).getD 4 []) ("\trenew".data) = true ∧
    ((pySplitlines c5Buf).drop 2).all (fun l => !digitLeading l) = true ∧
    scanStep scanInit ((pySplitlines c5Buf).getD 4 []) =
      some ({ renew_until := 1735776000, flags := ['R'], etype := none }, true) := by
  decide

/-- C5 (amended): the continuation-line scan after a ticket's digit-leading
line examines at most the next two lines — its result never depends on
anything beyond them; within that window it stops at a digit-leading line
(leaving the scan state untouched), and a well-formed `renew until`
continuation line that is reached is reflected in the scan state (and
hence in the ticket record). -/
theorem parse_klist_contscan_window :
    (∀ (a b : Chars) (r r' : List Chars), scanCont (a :: b :: r) = scanCont (a :: b :: r')) ∧
    (∀ (a : Chars) (r : List Chars), digitLeading a = true → scanCont (a :: r) = some scanInit) ∧
    (∀ (l1 ts fl : Chars) (v : Int) (f : Chars),
      pyStartsWith l1 ("\trenew".data) = true →
      pySplit l1 (",".data) = [ts, fl] →
      parseDT (pyStripChars ts renewStripSet) = some v →
      (pySplit fl ("Flags: ".data)).get? 1 = some f →
      scanCont [l1] = some { renew_until := v, flags := f, etype := none }) := by
  refine ⟨?_, ?_, ?_⟩
  · intro a b r r'
    rfl
  · intro a r h
    cases a with
    | nil => exact absurd h (by simp [digitLeading])
    | cons c a' =>
      have hdig : c.isDigit = true := by simpa [digitLeading] using h
      simp [scanCont, scanStep, hdig]
  · intro l1 ts fl v f hpre hsplit hparse hget
    obtain ⟨tl, rfl⟩ : ("\trenew".data : Chars) <+: l1 := List.isPrefixOf_iff_prefix.mp hpre
    have hd : ("\trenew".data : Chars) = ['\t', 'r', 'e', 'n', 'e', 'w'] := rfl
    rw [hd] at hsplit ⊢
    simp only [List.cons_append, List.nil_append] at hsplit ⊢
    simp only [scanCont, scanStep]
    rw [if_neg (by decide), if_neg (by simp [pyStartsWith, List.isPrefixOf]),
      if_pos (by simp [pyStartsWith, List.isPrefixOf]), hsplit]
    dsimp only
    rw [hparse]
    dsimp only
    rw [hget]
    rfl

/-- Witness for the amended C5: a digit-leading line halts the scan
unchanged, and a reachable well-formed `renew until` line is reflected. -/
theorem parse_klist_contscan_window_witness :
    scanCont [("01/02/25 00:00:00".data)] = some scanInit ∧
    scanCont [("\trenew until 01/02/25 00:00:00, Flags: R".data)] =
      some { renew_until := 1735776000, flags := ['R'], etype := none } :=
  ⟨parse_klist_contscan_window.2.1 ("01/02/25 00:00:00".data) [] (by decide),
   parse_klist_contscan_window.2.2 ("\trenew until 01/02/25 00:00:00, Flags: R".data)
     ("\trenew until 01/02/25 00:00:00".data) (" Flags: R".data) 1735776000 ("R".data)
     (by decide) (by decide) (by decide) (by decide)⟩

/-- C6: credential resolution — a configuration with a non-empty kerberos
principal resolves to the keytab form unconditionally (password fields and
the realm store untouched); the AD scenario (`bind_name="svc"`,
`domain_name="example.com"`) resolves to `svc@EXAMPLE.COM` with the bind
password regardless of the realm store; the LDAP scenario
(`binddn="cn=admin,dc=example,dc=com"`, realm id resolving to
`EXAMPLE.COM`) resolves to `admin@EXAMPLE.COM` with the bind password —
the username is the first RDN component's value plus `@` plus the realm. -/
theorem get_cred_resolution :
    (∀ (dstype : DSTypeTag) (conf : KrbConf) (lookup : Nat → Option Chars),
      conf.kerberos_principal ≠ [] →
      get_cred dstype conf lookup = .ok (.keytab conf.kerberos_principal)) ∧
    (∀ lookup : Nat → Option Chars,
      get_cred .DS_TYPE_ACTIVEDIRECTORY adConfEx lookup =
        .ok (.userPass ("svc@EXAMPLE.COM".data) ("s3cret".data))) ∧
    get_cred .DS_TYPE_LDAP ldapConfEx realmLookupEx =
      .ok (.userPass ("admin@EXAMPLE.COM".data) ("s3cret".data)) := by
  refine ⟨?_, ?_, ?_⟩
  · intro dstype conf lookup h
    simp only [get_cred]
    rw [if_pos h]
  · intro lookup
    rfl
  · rfl

/-- Witness for C6's universally quantified part: a configuration carrying
principal `a@B` resolves to that keytab principal even though password
fields are present. -/
theorem get_cred_resolution_witness :
    get_cred .DS_TYPE_ACTIVEDIRECTORY
        { bindname := "svc".data, bindpw := "pw".data, domainname := "example.com".data,
          kerberos_principal := "a@B".data }
        realmLookupEx =
      .ok (.keytab ("a@B".data)) :=
  get_cred_resolution.1 .DS_TYPE_ACTIVEDIRECTORY
    { bindname := "svc".data, bindpw := "pw".data, domainname := "example.com".data,
      kerberos_principal := "a@B".data }
    realmLookupEx (by decide)

/-- C7: without an explicit principal, a configuration missing one or more
required fields fails with a single aggregate validation error that names
exactly the missing fields (all collected before failing), and the result
does not depend on the realm store — validation touches no external
system. -/
theorem get_cred_validation :
    (∀ (conf : KrbConf) (l1 l2 : Nat → Option Chars),
      conf.kerberos_principal = [] →
      (conf.bindname = [] ∨ conf.bindpw = [] ∨ conf.domainname = []) →
      ∃ fs, get_cred .DS_TYPE_ACTIVEDIRECTORY conf l1 = .error (.validation fs) ∧
        get_cred .DS_TYPE_ACTIVEDIRECTORY conf l2 = .error (.validation fs) ∧
        fs ≠ [] ∧
        (("conf.bindname".data ∈ fs) ↔ conf.bindname = []) ∧
        (("conf.bindpw".data ∈ fs) ↔ conf.bindpw = []) ∧
        (("conf.domainname".data ∈ fs) ↔ conf.domainname = [])) ∧
    (∀ (conf : KrbConf) (l1 l2 : Nat → Option Chars),
      conf.kerberos_principal = [] →
      (conf.binddn = [] ∨ conf.bindpw = [] ∨ conf.kerberos_realm = 0) →
      ∃ fs, get_cred .DS_TYPE_LDAP conf l1 = .error (.validation fs) ∧
        get_cred .DS_TYPE_LDAP conf l2 = .error (.validation fs) ∧
        fs ≠ [] ∧
        (("conf.binddn".data ∈ fs) ↔ conf.binddn = []) ∧
        (("conf.bindpw".data ∈ fs) ↔ conf.bindpw = []) ∧
        (("conf.kerberos_realm".data ∈ fs) ↔ conf.kerberos_realm = 0)) := by
  constructor
  · intro conf l1 l2 hk hmiss
    refine ⟨(if conf.bindname = [] then ["conf.bindname".data] else []) ++
      (if conf.bindpw = [] then ["conf.bindpw".data] else []) ++
      (if conf.domainname = [] then ["conf.domainname".data] else []), ?_, ?_, ?_, ?_, ?_, ?_⟩
    · simp only [get_cred]
      rw [if_neg (by simp [hk]), if_pos (by rcases hmiss with h | h | h <;> simp [h])]
    · simp only [get_cred]
      rw [if_neg (by simp [hk]), if_pos (by rcases hmiss with h | h | h <;> simp [h])]
    · rcases hmiss with h | h | h <;> simp [h]
    · by_cases h1 : conf.bindname = [] <;> by_cases h2 : conf.bindpw = [] <;>
        by_cases h3 : conf.domainname = [] <;> simp [h1, h2, h3]
    · by_cases h1 : conf.bindname = [] <;> by_cases h2 : conf.bindpw = [] <;>
        by_cases h3 : conf.domainname = [] <;> simp [h1, h2, h3]
    · by_cases h1 : conf.bindname = [] <;> by_cases h2 : conf.bindpw = [] <;>
        by_cases h3 : conf.domainname = [] <;> simp [h1, h2, h3]
  · intro conf l1 l2 hk hmiss
    refine ⟨(if conf.binddn = [] then ["conf.binddn".data] else []) ++
      (if conf.bindpw = [] then ["conf.bindpw".data] else []) ++
      (if conf.kerberos_realm = 0 then ["conf.kerberos_realm".data] else []),
      ?_, ?_, ?_, ?_, ?_, ?_⟩
    · simp only [get_cred]
      rw [if_neg (by simp [hk]), if_pos (by rcases hmiss with h | h | h <;> simp [h])]
    · simp only [get_cred]
      rw [if_neg (by simp [hk]), if_pos (by rcases hmiss with h | h | h <;> simp [h])]
    · rcases hmiss with h | h | h <;> simp [h]
    · by_cases h1 : conf.binddn = [] <;> by_cases h2 : conf.bindpw = [] <;>
        by_cases h3 : conf.kerberos_realm = 0 <;> simp [h1, h2, h3]
    · by_cases h1 : conf.binddn = [] <;> by_cases h2 : conf.bindpw = [] <;>
        by_cases h3 : conf.kerberos_realm = 0 <;> simp [h1, h2, h3]
    · by_cases h1 : conf.binddn = [] <;> by_cases h2 : conf.bindpw = [] <;>
        by_cases h3 : conf.kerberos_realm = 0 <;> simp [h1, h2, h3]

/-- Witness for C7: an AD configuration missing bind password and domain
name yields the aggregate error naming exactly those two fields, under two
different realm stores. -/
theorem get_cred_validation_witness :
    get_cred .DS_TYPE_ACTIVEDIRECTORY { bindname := "svc".data } realmLookupEx =
      .error (.validation ["conf.bindpw".data, "conf.domainname".data]) ∧
    get_cred .DS_TYPE_ACTIVEDIRECTORY { bindname := "svc".data } (fun _ => none) =
      .error (.validation ["conf.bindpw".data, "conf.domainname".data]) := by
  obtain ⟨fs, hA, hB, -, -, -, -⟩ :=
    get_cred_validation.1 { bindname := "svc".data } realmLookupEx (fun _ => none)
      rfl (Or.inr (Or.inl rfl))
  have hconc : get_cred .DS_TYPE_ACTIVEDIRECTORY { bindname := "svc".data } realmLookupEx =
      .error (.validation ["conf.bindpw".data, "conf.domainname".data]) := rfl
  exact ⟨hconc, (hB.trans hA.symm).trans hconc⟩

/-- C8: acquisition rejects a User cache selector with keytab-based
credentials, and rejects a User cache selector with uid 0, in both cases
raising the conflict error with no external effect performed. -/
theorem do_kinit_user_ccache_rejected :
    (∀ (env : KinitEnv) (principal : Chars) (opts : KinitOptions),
      opts.ccache = .USER →
      do_kinit env (.keytab principal) opts = ([], some .userCcacheWithKeytab)) ∧
    (∀ (env : KinitEnv) (u p : Chars) (opts : KinitOptions),
      opts.ccache = .USER → opts.ccache_uid = 0 →
      do_kinit env (.userPass u p) opts = ([], some .userCcacheUidZero)) := by
  constructor
  · intro env principal opts h
    simp [do_kinit, h]
  · intro env u p opts h h0
    simp [do_kinit, h, h0]

/-- Witness for C8: the spec's acquirer scenario — `User(uid=0)` with
password credentials is rejected with the uid-0 conflict before any
process runs, and `User(uid=1000)` with keytab credentials is rejected
with the keytab conflict. -/
theorem do_kinit_user_ccache_rejected_witness :
    do_kinit { principal_choices := [], kinit_returncode := 0 }
        (.userPass ("svc@EXAMPLE.COM".data) ("pw".data)) { ccache := .USER, ccache_uid := 0 } =
      ([], some .userCcacheUidZero) ∧
    do_kinit { principal_choices := [], kinit_returncode := 0 }
        (.keytab ("a@B".data)) { ccache := .USER, ccache_uid := 1000 } =
      ([], some .userCcacheWithKeytab) :=
  ⟨do_kinit_user_ccache_rejected.2 { principal_choices := [], kinit_returncode := 0 }
      ("svc@EXAMPLE.COM".data) ("pw".data) { ccache := .USER, ccache_uid := 0 } rfl rfl,
   do_kinit_user_ccache_rejected.1 { principal_choices := [], kinit_returncode := 0 }
      ("a@B".data) { ccache := .USER, ccache_uid := 1000 } rfl⟩

lemma parseKeytabLine_slot (slot : Nat) (line : Chars) (e : KeytabEntry)
    (hp : parseKeytabLine slot line = some e) : e.slot = slot := by
  simp only [parseKeytabLine] at hp
  split at hp
  · split at hp
    · cases hp; rfl
    · exact absurd hp (by simp)
  · exact absurd hp (by simp)

lemma parseKeytabLines_slots (lines : List Chars) :
    ∀ (n : Nat) (es : List KeytabEntry),
    parseKeytabLines n lines = some es →
    es.map (fun e => e.slot) = List.range' n es.length := by
  induction lines with
  | nil =>
    intro n es hp
    simp only [parseKeytabLines] at hp
    cases hp
    rfl
  | cons l ls IH =>
    intro n es hp
    simp only [parseKeytabLines] at hp
    split at hp
    · exact absurd hp (by simp)
    case _ e he =>
      split at hp
      · exact absurd hp (by simp)
      case _ es' hes =>
        cases hp
        simp only [List.map_cons, List.length_cons, parseKeytabLine_slot n l e he,
          IH (n + 1) es' hes, List.range'_succ]

/-- C9: the keytab lister produces entries in strictly ascending slot
order (slots are numbered 1, 2, ... in listing order), and for every batch
of entries in ascending slot order the pruner emits its `delent` commands
in strictly descending slot order — so deletions within one batch cannot
be skewed by the slot renumbering earlier deletions cause — writing the
pruned copy to a separate working file and renaming it onto the samba
keytab path. -/
theorem keytab_prune_descending :
    (∀ (outLines : List Chars) (entries : List KeytabEntry),
      ktutil_list outLines = some entries →
      (entries.map (fun e => e.slot)).Pairwise (· < ·)) ∧
    (∀ batch : List KeytabEntry,
      (batch.map (fun e => e.slot)).Pairwise (· < ·) →
      (prune_keytab_principals batch).delentSlots.Pairwise (· > ·) ∧
      (prune_keytab_principals batch).wroteTo = sambaMitKeytabPath ∧
      (prune_keytab_principals batch).renamedTo = sambaKeytabPath) := by
  constructor
  · intro outLines entries hp
    simp only [ktutil_list] at hp
    split at hp
    · cases hp
      exact List.Pairwise.nil
    · split at hp
      · cases hp
        exact List.Pairwise.nil
      · rw [parseKeytabLines_slots _ 1 entries hp]
        exact List.pairwise_lt_range' 1 entries.length
  · intro batch hasc
    refine ⟨?_, rfl, rfl⟩
    show (batch.reverse.map (fun e => e.slot)).Pairwise (· > ·)
    rw [List.map_reverse]
    exact List.pairwise_reverse.mpr hasc

/-- Witness for C9 at the concrete listing `ktutilOutEx` (slots 1 and 2 in
ascending order) and its two-entry batch: the lister's slots are
ascending, the pruner's `delent` order is `[2, 1]` (descending), and the
pruned file is renamed onto the samba keytab path. -/
theorem keytab_prune_descending_witness :
    (ktutilEntriesEx.map (fun e => e.slot)).Pairwise (· < ·) ∧
    (prune_keytab_principals ktutilEntriesEx).delentSlots.Pairwise (· > ·) ∧
    (prune_keytab_principals ktutilEntriesEx).renamedTo = sambaKeytabPath :=
  ⟨by
    have h := keytab_prune_descending.1 ktutilOutEx ktutilEntriesEx (by decide)
    exact h,
   (keytab_prune_descending.2 ktutilEntriesEx
     (by
      have h := keytab_prune_descending.1 ktutilOutEx ktutilEntriesEx (by decide)
      exact h)).1,
   (keytab_prune_descending.2 ktutilEntriesEx
     (by
      have h := keytab_prune_descending.1 ktutilOutEx ktutilEntriesEx (by decide)
      exact h)).2.2⟩
